import Mathlib

/-!
# Verification of the XDMoD machine-learning example notebook

A shallow embedding of the notebook `XDMoD-Data-Machine-Learning-Example.ipynb`
and of the request/response contract of the external `xdmod_data` client as the
specification documents it.  Tabular data is modelled as lists of rows, a cell
being an optional rational number (`none` is the missing-value marker `<NA>`).
-/

namespace XdmodNotebook

/-- A cell of a tabular dataset: missing (`<NA>`) or a numeric value. -/
abbrev Cell := Option ℚ

/-- A row of a data frame: an association list from column name to cell. -/
abbrev Row := List (String × Cell)

/-- A data frame: an ordered list of rows. -/
abbrev DataFrame := List Row

/-- Association-list lookup by string key (first match wins). -/
def lookupStr {β : Type} (key : String) : List (String × β) → Option β
  | [] => none
  | kv :: t => if kv.1 = key then some kv.2 else lookupStr key t

/-- `data[col].notna()` for one row: the row has a non-missing value in
column `col`. -/
def colNotna (col : String) (r : Row) : Bool :=
  ((lookupStr col r).getD none).isSome

/-- Cell-25's row filtering `data = data[data[col].notna()]`: keep exactly the
rows whose value in column `col` is present. -/
def filterNotna (col : String) (df : DataFrame) : DataFrame :=
  df.filter (colNotna col)

/-! ## Cell-27: `data = data.astype(np.float64)` -/

/-- A 64-bit floating-point cell after the cast: either NaN (the
floating-point missing-value marker pandas uses for a cast `<NA>`) or a
finite value. -/
inductive F64 where
  | nan : F64
  | finite : ℚ → F64
deriving DecidableEq

/-- The rational is exactly representable as an IEEE-754 binary64 number:
a significand of magnitude at most `2^53` scaled by a power of two in the
double-precision exponent range. -/
def isRepr64 (q : ℚ) : Prop :=
  ∃ m e : ℤ, |m| ≤ 2 ^ 53 ∧ -1074 ≤ e ∧ e ≤ 971 ∧ q = (m : ℚ) * (2 : ℚ) ^ e

/-- Modelled from the spec: the per-cell action of pandas `astype(np.float64)`
(the pandas implementation is external to the repository).  A missing cell
becomes NaN, the post-cast missing marker; a present value that is exactly
representable in binary64 is carried over losslessly. -/
def castCell : Cell → F64
  | none => F64.nan
  | some q => F64.finite q

/-- Missing-value detection on post-cast cells: NaN is the missing marker. -/
def isnaF64 : F64 → Bool
  | F64.nan => true
  | F64.finite _ => false

/-- Modelled from the spec: cell-27's whole-table cast, applied cell by cell. -/
def astypeFloat64 (df : DataFrame) : List (List (String × F64)) :=
  df.map (fun r => r.map (fun cv => (cv.1, castCell cv.2)))

/-! ## Cell-29: `train_test_split(X, y, test_size=0.10)` -/

/-- One step of a linear congruential generator (the concrete constants are
immaterial; any fixed deterministic generator realizes the model). -/
def lcgStep (x : ℕ) : ℕ := (x * 1103515245 + 12345) % 2147483648

/-- The pseudo-random stream drawn from seed `s`: the `k`-th value is the
`(k+1)`-fold iterate of the generator on the seed. -/
def lcgStream (s : ℕ) (k : ℕ) : ℕ := lcgStep^[k + 1] s

/-- Remove and return the element at position `i` of a list. -/
def extractAt {α : Type} : List α → ℕ → Option (α × List α)
  | [], _ => none
  | a :: t, 0 => some (a, t)
  | a :: t, i + 1 =>
    match extractAt t i with
    | none => none
    | some br => some (br.1, a :: br.2)

/-- Fisher–Yates-style shuffle driven by the stream, with explicit fuel. -/
def shuffleAux {α : Type} (stream : ℕ → ℕ) : ℕ → ℕ → List α → List α
  | 0, _, l => l
  | fuel + 1, k, l =>
    match extractAt l (stream k % l.length) with
    | none => l
    | some ar => ar.1 :: shuffleAux stream fuel (k + 1) ar.2

/-- Shuffle a list deterministically from the given stream. -/
def shuffle {α : Type} (stream : ℕ → ℕ) (l : List α) : List α :=
  shuffleAux stream l.length 0 l

/-- Number of rows in the test subset for `n` rows and `test_size=0.10`:
the ceiling of `0.10 × n`, scikit-learn's chosen rounding rule. -/
def testCount (n : ℕ) : ℕ := (n + 9) / 10

/-- Modelled from the spec: scikit-learn's `train_test_split` is external to
the repository.  The rows are shuffled by a pseudo-random stream drawn from
the seed when one is supplied (`random_state`) and from ambient entropy
otherwise; the first `testCount` shuffled rows form the test subset and the
rest form the training subset.  Returns `(train, test)`. -/
def train_test_split (seed : Option ℕ) (entropy : ℕ) (df : DataFrame) :
    DataFrame × DataFrame :=
  let s := seed.getD entropy
  let shuffled := shuffle (lcgStream s) df
  (shuffled.drop (testCount df.length), shuffled.take (testCount df.length))

/-! ## Cell-13: bootstrap of the `~/xdmod-data.env` credential file -/

/-- A file's observable state: its contents and its permission mode bits. -/
structure FileState where
  contents : String
  mode : ℕ
deriving DecidableEq

/-- A file system fragment: an association list from path to file state. -/
abbrev FileSystem := List (String × FileState)

/-- The fixed per-user credential file location (`expanduser('~/xdmod-data.env')`). -/
def xdmodDataEnvPath : String := "~/xdmod-data.env"

/-- The empty token placeholder written on first run. -/
def tokenPlaceholder : String := "XDMOD_API_TOKEN="

/-- Cell-13: try to open the credential file; when that raises
`FileNotFoundError`, write the placeholder contents and chmod the file to
`0o600`.  The net effect on the file system: an absent file appears with the
placeholder contents and mode `0o600`; an existing file is untouched. -/
def bootstrapEnvFile (fs : FileSystem) : FileSystem :=
  match lookupStr xdmodDataEnvPath fs with
  | some _ => fs
  | none => (xdmodDataEnvPath, ⟨tokenPlaceholder, 0o600⟩) :: fs

/-- Mode bits permit only the owning user, with read and write for the owner:
owner octet is 6 (rw), group and other octets are 0. -/
def ownerOnlyRW (m : ℕ) : Bool :=
  decide ((m / 64) % 8 = 6 ∧ (m / 8) % 8 = 0 ∧ m % 8 = 0)

/-! ## Cell-21 and cells 45–57: the `get_raw_data` query contract -/

/-- A calendar date. -/
structure Date where
  year : ℕ
  month : ℕ
  day : ℕ
deriving DecidableEq

/-- A strictly monotone key realizing chronological order on calendar dates
(lexicographic on year, month, day). -/
def Date.key (d : Date) : ℕ := (d.year * 13 + d.month) * 32 + d.day

/-- The duration of a query: two inclusive calendar-date bounds, or a named
alias from the server-defined vocabulary. -/
inductive Duration where
  | between : Date → Date → Duration
  | named : String → Duration
deriving DecidableEq

/-- An immutable Query Specification, as passed to `get_raw_data`. -/
structure QuerySpec where
  duration : Duration
  realm : String
  fields : List String
  filters : List (String × List String)

/-- One raw job record held server-side: its date, its dimension values, and
its field values (a field's measurement may be missing). -/
structure RawRecord where
  date : Date
  dims : List (String × String)
  values : List (String × Cell)

/-- A Result Table: the resolved column list and one row of cells per
matching record. -/
structure ResultTable where
  columns : List String
  rows : List (List Cell)
deriving DecidableEq

/-- The remote warehouse as the notebook observes it: the duration-alias
vocabulary (each alias resolving to a date range), the per-realm field
schemas, and the per-realm raw records. -/
structure Server where
  durationAliases : List (String × (Date × Date))
  realms : List (String × List String)
  records : List (String × List RawRecord)

/-- The failure modes of a fetch. -/
inductive QueryError where
  | invalidArgument : String → QueryError
  | authError : QueryError
  | networkError : QueryError
deriving DecidableEq

/-- A record passes the filters when, for every filtered dimension, the
record's value for that dimension is among the allowed values. -/
def matchesFilters (filters : List (String × List String)) (rec : RawRecord) : Bool :=
  filters.all fun fv =>
    match lookupStr fv.1 rec.dims with
    | some v => fv.2.contains v
    | none => false

/-- The record's date lies in the inclusive range from `s` to `e`. -/
def inRange (s e : Date) (rec : RawRecord) : Bool :=
  decide (s.key ≤ rec.date.key ∧ rec.date.key ≤ e.key)

/-- Project a record onto the requested fields, keeping missing cells
missing. -/
def projectRow (fields : List String) (rec : RawRecord) : List Cell :=
  fields.map fun f => (lookupStr f rec.values).getD none

/-- Modelled from the spec: the fetch once the duration has resolved to a
date range.  Realm and fields are validated against the server's metadata
(one network call); on success the matching records are fetched and
projected (a second network call).  The second component counts network
calls. -/
def runFetch (srv : Server) (spec : QuerySpec) (s e : Date) :
    Except QueryError ResultTable × ℕ :=
  match lookupStr spec.realm srv.realms with
  | none => (Except.error (QueryError.invalidArgument "unknown realm"), 1)
  | some schema =>
    let requested := if spec.fields.isEmpty then schema else spec.fields
    if requested.all fun f => schema.contains f then
      let recs := (lookupStr spec.realm srv.records).getD []
      let matching := recs.filter fun rec =>
        inRange s e rec && matchesFilters spec.filters rec
      (Except.ok ⟨requested, matching.map (projectRow requested)⟩, 2)
    else (Except.error (QueryError.invalidArgument "field not in realm schema"), 1)

/-- Modelled from the spec: `get_raw_data` of the external `xdmod_data`
client.  Chronological ordering of an explicit date pair is checked locally
before any network call; a named alias is resolved against the server's
vocabulary.  Either a whole Result Table is returned or the query fails with
an error — there is no partial result. -/
def get_raw_data (srv : Server) (spec : QuerySpec) :
    Except QueryError ResultTable × ℕ :=
  match spec.duration with
  | Duration.between s e =>
    if e.key < s.key then
      (Except.error (QueryError.invalidArgument "start date after end date"), 0)
    else runFetch srv spec s e
  | Duration.named a =>
    match lookupStr a srv.durationAliases with
    | some se => runFetch srv spec se.1 se.2
    | none => (Except.error (QueryError.invalidArgument "unknown duration"), 1)

/-- The 8 fields requested in cell-21. -/
def fields8 : List String :=
  ["CPU User", "Nodes", "Wall Time", "Wait Time", "Requested Wall Time",
   "Total memory used", "Mount point \"home\" data written",
   "Mount point \"scratch\" data written"]

/-- The two resources filtered in cell-21. -/
def resources2 : List String := ["STAMPEDE2 TACC", "Bridges 2 RM"]

/-- The exact Query Specification issued by cell-21. -/
def cell21Query : QuerySpec where
  duration := Duration.between ⟨2023, 5, 1⟩ ⟨2023, 5, 2⟩
  realm := "SUPREMM"
  fields := fields8
  filters := [("Resource", resources2)]

/-! ## Cells 21 and 42: the `with dw:` runtime context -/

/-- The observable runtime state: how many network resources are open. -/
structure RtState where
  openConnections : ℕ
deriving DecidableEq

/-- How the body of a `with` block ends: normal completion, an error raised
by a query, or an interruption. -/
inductive Outcome (α : Type) where
  | ok : α → Outcome α
  | raised : String → Outcome α
  | interrupted : Outcome α
deriving DecidableEq

/-- Entering the runtime context acquires the session's network resource. -/
def sessionEnter (s : RtState) : RtState := ⟨s.openConnections + 1⟩

/-- Leaving the runtime context releases the session's network resource. -/
def sessionExit (s : RtState) : RtState := ⟨s.openConnections - 1⟩

/-- Modelled from the spec: the `with dw:` scope of cells 21 and 42.  Python's
with-statement semantics run the exit handler on every way out of the body —
normal completion, a raised error, or an interruption — so the release is
unconditional on the body's outcome. -/
def withSession {α : Type} (body : RtState → RtState × Outcome α) (s : RtState) :
    RtState × Outcome α :=
  let s1 := sessionEnter s
  let r := body s1
  (sessionExit r.1, r.2)

end XdmodNotebook

namespace XdmodNotebook

/-! ## Theorems -/

theorem extractAt_length {α : Type} :
    ∀ (l : List α) (i : ℕ) (a : α) (rest : List α),
      extractAt l i = some (a, rest) → rest.length + 1 = l.length := by
  intro l
  induction l with
  | nil => intro i a rest h; simp [extractAt] at h
  | cons hd tl ih =>
    intro i a rest h
    cases i with
    | zero =>
      simp [extractAt] at h
      simp [h.2.symm]
    | succ j =>
      simp only [extractAt] at h
      cases hx : extractAt tl j with
      | none => rw [hx] at h; simp at h
      | some br =>
        rw [hx] at h
        simp at h
        have := ih j br.1 br.2 (by rw [hx])
        simp [← h.2, ← this]

theorem shuffleAux_length {α : Type} (stream : ℕ → ℕ) :
    ∀ (fuel k : ℕ) (l : List α),
      (shuffleAux stream fuel k l).length = l.length := by
  intro fuel
  induction fuel with
  | zero => intro k l; rfl
  | succ n ih =>
    intro k l
    cases hx : extractAt l (stream k % l.length) with
    | none => simp [shuffleAux, hx]
    | some ar =>
      simp only [shuffleAux, hx, List.length_cons]
      rw [ih (k + 1) ar.2]
      exact extractAt_length l _ ar.1 ar.2 hx

theorem shuffle_length {α : Type} (stream : ℕ → ℕ) (l : List α) :
    (shuffle stream l).length = l.length :=
  shuffleAux_length stream l.length 0 l

theorem filterNotna_sublist (col : String) (df : DataFrame) :
    (filterNotna col df).Sublist df :=
  List.filter_sublist df

theorem filterNotna_count (col : String) (df : DataFrame) (r : Row) :
    (filterNotna col df).count r = if colNotna col r then df.count r else 0 := by
  by_cases h : colNotna col r
  · rw [if_pos h]
    simp only [filterNotna, List.count_filter, h]
  · rw [if_neg h, List.count_eq_zero]
    intro hmem
    exact h (List.mem_filter.mp hmem).2

theorem filterNotna_idem (col : String) (df : DataFrame) :
    filterNotna col (filterNotna col df) = filterNotna col df := by
  simp only [filterNotna, List.filter_filter]
  congr 1
  funext r
  cases h : colNotna col r <;> simp [h]

/-- C1: the notna row filter removes exactly the rows whose value in the
designated column is missing, keeps every other row (with its multiplicity,
in order), and is idempotent. -/
theorem notna_filter_exact_and_idempotent (col : String) (df : DataFrame) :
    (filterNotna col df).Sublist df ∧
    (∀ r : Row, (filterNotna col df).count r =
      if colNotna col r then df.count r else 0) ∧
    filterNotna col (filterNotna col df) = filterNotna col df :=
  ⟨filterNotna_sublist col df, filterNotna_count col df, filterNotna_idem col df⟩

/-- C2: casting to 64-bit floating point is lossless on exactly representable
values, a missing cell casts to a cell still detected as missing, a zero cell
casts to a cell not detected as missing, and the two-cell table with one
missing and one zero cell keeps them distinct after the cast. -/
theorem astype_float64_lossless_and_missing_distinct (q : ℚ) (_h : isRepr64 q) :
    castCell (some q) = F64.finite q ∧
    isnaF64 (castCell none) = true ∧
    isnaF64 (castCell (some 0)) = false ∧
    castCell none ≠ castCell (some 0) ∧
    astypeFloat64 [[("a", none), ("b", some 0)]] =
      [[("a", F64.nan), ("b", F64.finite 0)]] := by
  refine ⟨rfl, rfl, rfl, ?_, rfl⟩
  intro hcontra
  exact F64.noConfusion hcontra

/-- Witness for C2 at the representable value `1/2 = 1 * 2^(-1)`. -/
theorem astype_float64_lossless_and_missing_distinct_witness :
    isRepr64 (1 / 2 : ℚ) ∧
    (castCell (some (1 / 2 : ℚ)) = F64.finite (1 / 2 : ℚ) ∧
     isnaF64 (castCell none) = true ∧
     isnaF64 (castCell (some 0)) = false ∧
     castCell none ≠ castCell (some 0) ∧
     astypeFloat64 [[("a", none), ("b", some 0)]] =
       [[("a", F64.nan), ("b", F64.finite 0)]]) := by
  have hrepr : isRepr64 (1 / 2 : ℚ) := by
    refine ⟨1, -1, by norm_num, by norm_num, by norm_num, by norm_num⟩
  exact ⟨hrepr, astype_float64_lossless_and_missing_distinct (1 / 2 : ℚ) hrepr⟩

/-- C5: when the credential file is absent, the bootstrap creates it with
exactly the empty token placeholder under the fixed key and mode `0o600`,
readable and writable by the owning user only. -/
theorem bootstrap_creates_env_file (fs : FileSystem)
    (h : lookupStr xdmodDataEnvPath fs = none) :
    lookupStr xdmodDataEnvPath (bootstrapEnvFile fs) =
      some ⟨tokenPlaceholder, 0o600⟩ ∧
    ownerOnlyRW 0o600 = true := by
  constructor
  · unfold bootstrapEnvFile
    rw [h]
    simp [lookupStr]
  · decide

/-- Witness for C5 on the empty file system. -/
theorem bootstrap_creates_env_file_witness :
    lookupStr xdmodDataEnvPath ([] : FileSystem) = none ∧
    (lookupStr xdmodDataEnvPath (bootstrapEnvFile ([] : FileSystem)) =
       some ⟨tokenPlaceholder, 0o600⟩ ∧
     ownerOnlyRW 0o600 = true) :=
  ⟨rfl, bootstrap_creates_env_file [] rfl⟩

/-- C3: for a table of at least 3 rows, the 90/10 split produces subsets whose
sizes sum to the number of rows, with the smaller (test) subset's size equal to
`0.10 × N` rounded by the chosen rule (the ceiling, scikit-learn's rule). -/
theorem train_test_split_sizes (seed : Option ℕ) (entropy : ℕ) (df : DataFrame)
    (h : 3 ≤ df.length) :
    (train_test_split seed entropy df).2.length +
      (train_test_split seed entropy df).1.length = df.length ∧
    (train_test_split seed entropy df).2.length = (df.length + 9) / 10 ∧
    (train_test_split seed entropy df).2.length <
      (train_test_split seed entropy df).1.length := by
  unfold train_test_split
  simp only [List.length_take, List.length_drop, shuffle_length, testCount]
  omega

/-- Witness for C3 on a 12-row table: test subset has 2 rows, training 10. -/
theorem train_test_split_sizes_witness :
    3 ≤ (List.replicate 12 ([] : Row)).length ∧
    ((train_test_split none 0 (List.replicate 12 ([] : Row))).2.length +
       (train_test_split none 0 (List.replicate 12 ([] : Row))).1.length =
       (List.replicate 12 ([] : Row)).length ∧
     (train_test_split none 0 (List.replicate 12 ([] : Row))).2.length =
       ((List.replicate 12 ([] : Row)).length + 9) / 10 ∧
     (train_test_split none 0 (List.replicate 12 ([] : Row))).2.length <
       (train_test_split none 0 (List.replicate 12 ([] : Row))).1.length) :=
  ⟨by decide, train_test_split_sizes none 0 (List.replicate 12 []) (by decide)⟩

/-- C4: with a fixed seed the split is reproducible: the ambient entropy of the
run has no influence, so two runs with the same seed and the same table assign
exactly the same rows to the training subset and to the test subset. -/
theorem train_test_split_seed_reproducible (s e₁ e₂ : ℕ) (df : DataFrame) :
    train_test_split (some s) e₁ df = train_test_split (some s) e₂ df := rfl

/-- C10: when the credential file already exists, the bootstrap leaves the
whole file system unchanged — contents, mode bits (even ones broader than
owner-only), and every other file. -/
theorem bootstrap_preserves_existing_file (fs : FileSystem) (st : FileState)
    (h : lookupStr xdmodDataEnvPath fs = some st) :
    bootstrapEnvFile fs = fs := by
  unfold bootstrapEnvFile
  rw [h]

/-- Witness for C10: an existing file with broad permissions `0o644` and a
stored token stays exactly as it is. -/
theorem bootstrap_preserves_existing_file_witness :
    lookupStr xdmodDataEnvPath
        [(xdmodDataEnvPath, FileState.mk "XDMOD_API_TOKEN=abc123" 0o644)] =
      some (FileState.mk "XDMOD_API_TOKEN=abc123" 0o644) ∧
    bootstrapEnvFile
        [(xdmodDataEnvPath, FileState.mk "XDMOD_API_TOKEN=abc123" 0o644)] =
      [(xdmodDataEnvPath, FileState.mk "XDMOD_API_TOKEN=abc123" 0o644)] := by
  refine ⟨by simp [lookupStr], ?_⟩
  exact bootstrap_preserves_existing_file _
    (FileState.mk "XDMOD_API_TOKEN=abc123" 0o644) (by simp [lookupStr])

/-- C6: a Query Specification whose duration is an explicit date pair with
the start date after the end date is rejected before any network call: the
fetch fails with zero network calls made. -/
theorem get_raw_data_rejects_unordered_dates (srv : Server) (spec : QuerySpec)
    (s e : Date) (h1 : spec.duration = Duration.between s e)
    (h2 : e.key < s.key) :
    get_raw_data srv spec =
      (Except.error (QueryError.invalidArgument "start date after end date"), 0) := by
  unfold get_raw_data
  rw [h1]
  simp [h2]

/-- Witness for C6: the cell-21 query with its dates swapped fails against an
arbitrary server with zero network calls. -/
theorem get_raw_data_rejects_unordered_dates_witness :
    (QuerySpec.mk (Duration.between ⟨2023, 5, 2⟩ ⟨2023, 5, 1⟩) "SUPREMM"
        fields8 []).duration = Duration.between ⟨2023, 5, 2⟩ ⟨2023, 5, 1⟩ ∧
    Date.key ⟨2023, 5, 1⟩ < Date.key ⟨2023, 5, 2⟩ ∧
    get_raw_data (Server.mk [] [] [])
        (QuerySpec.mk (Duration.between ⟨2023, 5, 2⟩ ⟨2023, 5, 1⟩) "SUPREMM"
          fields8 []) =
      (Except.error (QueryError.invalidArgument "start date after end date"), 0) :=
  ⟨rfl, by decide,
   get_raw_data_rejects_unordered_dates (Server.mk [] [] []) _ _ _ rfl (by decide)⟩

/-- C7: with a chronologically ordered duration and a known realm but a
requested field unknown to the realm's schema, the fetch fails with an
Invalid-Argument error and returns no (partial) Result Table. -/
theorem get_raw_data_rejects_unknown_field (srv : Server) (spec : QuerySpec)
    (s e : Date) (schema : List String)
    (h1 : spec.duration = Duration.between s e)
    (h2 : s.key ≤ e.key)
    (h3 : lookupStr spec.realm srv.realms = some schema)
    (h4 : spec.fields.isEmpty = false)
    (h5 : (spec.fields.all fun f => schema.contains f) = false) :
    get_raw_data srv spec =
      (Except.error (QueryError.invalidArgument "field not in realm schema"), 1) ∧
    ∀ t : ResultTable, (get_raw_data srv spec).1 ≠ Except.ok t := by
  have hmain : get_raw_data srv spec =
      (Except.error (QueryError.invalidArgument "field not in realm schema"), 1) := by
    unfold get_raw_data
    rw [h1]
    dsimp only
    rw [if_neg (by omega)]
    unfold runFetch
    rw [h3]
    dsimp only
    rw [h4]
    simp only [Bool.false_eq_true, if_false]
    rw [if_neg (by rw [h5]; exact Bool.false_ne_true)]
  refine ⟨hmain, ?_⟩
  rw [hmain]
  intro t hc
  exact Except.noConfusion hc

/-- Witness for C7: asking the SUPREMM realm for a bogus field fails with the
Invalid-Argument error and yields no table. -/
theorem get_raw_data_rejects_unknown_field_witness :
    (QuerySpec.mk (Duration.between ⟨2023, 5, 1⟩ ⟨2023, 5, 2⟩) "SUPREMM"
        ["Bogus Field"] []).duration =
      Duration.between ⟨2023, 5, 1⟩ ⟨2023, 5, 2⟩ ∧
    Date.key ⟨2023, 5, 1⟩ ≤ Date.key ⟨2023, 5, 2⟩ ∧
    lookupStr "SUPREMM" (Server.mk [] [("SUPREMM", ["CPU User"])] []).realms =
      some ["CPU User"] ∧
    (["Bogus Field"].isEmpty = false) ∧
    ((["Bogus Field"].all fun f => ["CPU User"].contains f) = false) ∧
    (get_raw_data (Server.mk [] [("SUPREMM", ["CPU User"])] [])
        (QuerySpec.mk (Duration.between ⟨2023, 5, 1⟩ ⟨2023, 5, 2⟩) "SUPREMM"
          ["Bogus Field"] []) =
      (Except.error (QueryError.invalidArgument "field not in realm schema"), 1) ∧
     ∀ t : ResultTable,
       (get_raw_data (Server.mk [] [("SUPREMM", ["CPU User"])] [])
         (QuerySpec.mk (Duration.between ⟨2023, 5, 1⟩ ⟨2023, 5, 2⟩) "SUPREMM"
           ["Bogus Field"] [])).1 ≠ Except.ok t) :=
  ⟨rfl, by decide, by decide, by decide, by decide,
   get_raw_data_rejects_unknown_field _ _ _ _ ["CPU User"] rfl (by decide)
     (by decide) (by decide) (by decide)⟩

theorem runFetch_ok (srv : Server) (spec : QuerySpec) (s e : Date)
    (schema : List String)
    (h1 : lookupStr spec.realm srv.realms = some schema)
    (h2 : spec.fields.isEmpty = false)
    (h3 : (spec.fields.all fun f => schema.contains f) = true) :
    runFetch srv spec s e =
      (Except.ok ⟨spec.fields,
        ((((lookupStr spec.realm srv.records).getD []).filter fun rec =>
            inRange s e rec && matchesFilters spec.filters rec).map
          (projectRow spec.fields))⟩, 2) := by
  unfold runFetch
  rw [h1]
  dsimp only
  rw [h2]
  simp only [Bool.false_eq_true, if_false]
  rw [if_pos h3]

/-- C8: against any server whose SUPREMM schema contains the 8 requested
fields, the cell-21 query succeeds with a Result Table whose column set is
exactly the 8 requested fields and each of whose rows is the projection —
missing cells kept missing — of a server record lying in the inclusive
two-day window and belonging to one of the two named resources. -/
theorem cell21_query_shape (srv : Server) (schema : List String)
    (h1 : lookupStr "SUPREMM" srv.realms = some schema)
    (h2 : (fields8.all fun f => schema.contains f) = true) :
    ∃ t : ResultTable,
      get_raw_data srv cell21Query = (Except.ok t, 2) ∧
      t.columns = fields8 ∧
      ∀ row ∈ t.rows, ∃ rec ∈ (lookupStr "SUPREMM" srv.records).getD [],
        (Date.key ⟨2023, 5, 1⟩ ≤ rec.date.key ∧
         rec.date.key ≤ Date.key ⟨2023, 5, 2⟩) ∧
        (∃ v, lookupStr "Resource" rec.dims = some v ∧ v ∈ resources2) ∧
        row = projectRow fields8 rec := by
  have hstep : get_raw_data srv cell21Query =
      runFetch srv cell21Query ⟨2023, 5, 1⟩ ⟨2023, 5, 2⟩ := rfl
  have h1' : lookupStr cell21Query.realm srv.realms = some schema := h1
  have h2' : (cell21Query.fields.all fun f => schema.contains f) = true := h2
  have hfetch := runFetch_ok srv cell21Query ⟨2023, 5, 1⟩ ⟨2023, 5, 2⟩ schema
    h1' rfl h2'
  rw [hstep, hfetch]
  refine ⟨_, rfl, rfl, ?_⟩
  intro row hrow
  rcases List.mem_map.mp hrow with ⟨rec, hrecmem, hproj⟩
  rcases List.mem_filter.mp hrecmem with ⟨hrecs, hpred⟩
  rw [Bool.and_eq_true] at hpred
  obtain ⟨hrange, hfilt⟩ := hpred
  refine ⟨rec, hrecs, of_decide_eq_true hrange, ?_, hproj.symm⟩
  simp only [matchesFilters, cell21Query, List.all_cons, List.all_nil,
    Bool.and_true] at hfilt
  cases hlook : lookupStr "Resource" rec.dims with
  | none => rw [hlook] at hfilt; exact absurd hfilt (by simp)
  | some v =>
    rw [hlook] at hfilt
    refine ⟨v, rfl, ?_⟩
    simpa using hfilt

/-- Witness for C8: a two-record server — one in-window STAMPEDE2 record with
a missing CPU User cell, one out-of-window record — satisfies the theorem. -/
theorem cell21_query_shape_witness :
    lookupStr "SUPREMM"
        (Server.mk [] [("SUPREMM", fields8)]
          [("SUPREMM",
            [RawRecord.mk ⟨2023, 5, 1⟩ [("Resource", "STAMPEDE2 TACC")]
               [("CPU User", none), ("Nodes", some 2)],
             RawRecord.mk ⟨2023, 6, 1⟩ [("Resource", "STAMPEDE2 TACC")]
               [("CPU User", some 1)]])]).realms = some fields8 ∧
    ((fields8.all fun f => fields8.contains f) = true) ∧
    (∃ t : ResultTable,
      get_raw_data
          (Server.mk [] [("SUPREMM", fields8)]
            [("SUPREMM",
              [RawRecord.mk ⟨2023, 5, 1⟩ [("Resource", "STAMPEDE2 TACC")]
                 [("CPU User", none), ("Nodes", some 2)],
               RawRecord.mk ⟨2023, 6, 1⟩ [("Resource", "STAMPEDE2 TACC")]
                 [("CPU User", some 1)]])]) cell21Query = (Except.ok t, 2) ∧
      t.columns = fields8 ∧
      ∀ row ∈ t.rows, ∃ rec ∈ (lookupStr "SUPREMM"
          (Server.mk [] [("SUPREMM", fields8)]
            [("SUPREMM",
              [RawRecord.mk ⟨2023, 5, 1⟩ [("Resource", "STAMPEDE2 TACC")]
                 [("CPU User", none), ("Nodes", some 2)],
               RawRecord.mk ⟨2023, 6, 1⟩ [("Resource", "STAMPEDE2 TACC")]
                 [("CPU User", some 1)]])]).records).getD [],
        (Date.key ⟨2023, 5, 1⟩ ≤ rec.date.key ∧
         rec.date.key ≤ Date.key ⟨2023, 5, 2⟩) ∧
        (∃ v, lookupStr "Resource" rec.dims = some v ∧ v ∈ resources2) ∧
        row = projectRow fields8 rec) := by
  refine ⟨by decide, by decide, ?_⟩
  exact cell21_query_shape _ fields8 (by decide) (by decide)

/-- C9: leaving the `with dw:` runtime context releases the session's network
resource whatever the body's exit mode — since the body's outcome (normal,
raised error, or interruption) is arbitrary, the open-connection count is
restored to its initial value in every case, and the outcome is propagated
unchanged. -/
theorem with_session_releases (α : Type) (body : RtState → RtState × Outcome α)
    (s : RtState)
    (h : (body (sessionEnter s)).1.openConnections =
      (sessionEnter s).openConnections) :
    (withSession body s).1.openConnections = s.openConnections ∧
    (withSession body s).2 = (body (sessionEnter s)).2 := by
  unfold withSession
  refine ⟨?_, rfl⟩
  simp only [sessionExit]
  rw [h]
  simp [sessionEnter]

/-- Witness for C9: a body ending in an interruption still leaves zero open
connections behind. -/
theorem with_session_releases_witness :
    ((fun t => (t, (Outcome.interrupted : Outcome ℕ)))
        (sessionEnter ⟨0⟩)).1.openConnections =
      (sessionEnter ⟨0⟩).openConnections ∧
    ((withSession (fun t => (t, (Outcome.interrupted : Outcome ℕ)))
        ⟨0⟩).1.openConnections = (RtState.mk 0).openConnections ∧
     (withSession (fun t => (t, (Outcome.interrupted : Outcome ℕ))) ⟨0⟩).2 =
       ((fun t => (t, (Outcome.interrupted : Outcome ℕ)))
         (sessionEnter ⟨0⟩)).2) :=
  ⟨rfl, with_session_releases ℕ (fun t => (t, Outcome.interrupted)) ⟨0⟩ rfl⟩

end XdmodNotebook
